import Mathlib

/-!
Verification of the team decision-simulation service.

This file gives a shallow embedding, in Lean, of the core logic of the
repository: the scenario-generation route, the opening-prompt route, the
next-host-line route, the analyzer route, and the client-side conversation
engine.  External collaborators (the Firestore document store, the Gemini
text-generation service, and the JavaScript runtime primitive JSON.parse)
are modelled explicitly: the store as optional records plus explicit write
effects, the generation service as an oracle value describing one upstream
HTTP response, and JSON.parse as an executable fuel-based JSON parser over
a Json inductive.  Numbers in the Json model are integers (the code paths
verified here never depend on fractional values), and the \u string escape
is not modelled; both restrictions only narrow the set of inputs the
universally quantified theorems speak about.
-/

namespace Cypher

/-- The left and right curly-brace characters, used by the JSON parser and
by the brace-extraction heuristic of the opening-prompt route. -/
def lbrace : Char := Char.ofNat 123

/-- Right curly brace. -/
def rbrace : Char := Char.ofNat 125

/-- Whitespace as recognised by the JavaScript trim and by JSON. -/
def isWsChar (c : Char) : Bool := c = ' ' || c = '\t' || c = '\n' || c = '\r'

/-- Trim whitespace from both ends of a character list; models the
JavaScript String.prototype.trim on the character sets our inputs use. -/
def trimChars (cs : List Char) : List Char :=
  (cs.dropWhile isWsChar).rdropWhile isWsChar

/-- String form of `trimChars`; models the JavaScript trim. -/
def jsTrim (s : String) : String := ⟨trimChars s.toList⟩

/-- A JSON value as produced by the JavaScript JSON.parse.  Numbers are
modelled as integers. -/
inductive Json where
  | null : Json
  | bool (b : Bool) : Json
  | num (n : Int) : Json
  | str (s : String) : Json
  | arr (elems : List Json) : Json
  | obj (fields : List (String × Json)) : Json

/-- Field access `o?.k` on a parsed JSON value: `none` models the
JavaScript undefined.  For duplicate keys JSON.parse keeps the last
occurrence, hence the reversed search. -/
def jsGet (j : Json) (k : String) : Option Json :=
  match j with
  | Json.obj fields => (fields.reverse.find? (fun p => p.1 = k)).map (fun p => p.2)
  | _ => none

/-- JavaScript truthiness of a JSON value. -/
def jsTruthy : Json → Bool
  | Json.null => false
  | Json.bool b => b
  | Json.num n => n != 0
  | Json.str s => s != ""
  | Json.arr _ => true
  | Json.obj _ => true

/-- Truthiness of a possibly-undefined value (`none` is falsy). -/
def jsTruthyOpt : Option Json → Bool
  | none => false
  | some j => jsTruthy j

/-- One character of a JSON string escape sequence. -/
def escChar : Char → Option Char
  | '\"' => some '\"'
  | '\\' => some '\\'
  | '/' => some '/'
  | 'n' => some '\n'
  | 't' => some '\t'
  | 'r' => some '\r'
  | 'b' => some (Char.ofNat 8)
  | 'f' => some (Char.ofNat 12)
  | _ => none

/-- Parse the body of a JSON string after the opening quote, returning the
decoded characters and the rest of the input after the closing quote. -/
def parseStrChars : List Char → Option (List Char × List Char)
  | [] => none
  | '\"' :: rest => some ([], rest)
  | '\\' :: e :: rest =>
    match escChar e, parseStrChars rest with
    | some c, some (s, r) => some (c :: s, r)
    | _, _ => none
  | c :: rest =>
    match parseStrChars rest with
    | some (s, r) => some (c :: s, r)
    | none => none

/-- Drop leading JSON whitespace. -/
def skipWs (cs : List Char) : List Char := cs.dropWhile isWsChar

/-- Parse a JSON integer (optional minus sign, one or more digits); the
fractional and exponent forms are outside the model. -/
def parseNum (cs : List Char) : Option (Int × List Char) :=
  let (neg, cs1) : Bool × List Char :=
    match cs with
    | '-' :: rest => (true, rest)
    | _ => (false, cs)
  let digits := cs1.takeWhile Char.isDigit
  let rest := cs1.dropWhile Char.isDigit
  if digits.isEmpty then none
  else
    match rest with
    | '.' :: _ => none
    | 'e' :: _ => none
    | 'E' :: _ => none
    | _ =>
      let v : Nat := digits.foldl (fun a c => a * 10 + (c.toNat - 48)) 0
      some (if neg then -(v : Int) else (v : Int), rest)

mutual

/-- Parse one JSON value, fuel-bounded. -/
def parseVal : Nat → List Char → Option (Json × List Char)
  | 0, _ => none
  | fuel + 1, cs =>
    match skipWs cs with
    | [] => none
    | c :: rest =>
      if c = '\"' then
        match parseStrChars rest with
        | some (s, r) => some (Json.str ⟨s⟩, r)
        | none => none
      else if c = lbrace then
        match skipWs rest with
        | c2 :: r2 =>
          if c2 = rbrace then some (Json.obj [], r2)
          else
            match parseFields fuel (skipWs rest) with
            | some (fs, r) => some (Json.obj fs, r)
            | none => none
        | [] => none
      else if c = '[' then
        match skipWs rest with
        | ']' :: r2 => some (Json.arr [], r2)
        | _ =>
          match parseElems fuel (skipWs rest) with
          | some (es, r) => some (Json.arr es, r)
          | none => none
      else if c = 't' then
        match rest with
        | 'r' :: 'u' :: 'e' :: r => some (Json.bool true, r)
        | _ => none
      else if c = 'f' then
        match rest with
        | 'a' :: 'l' :: 's' :: 'e' :: r => some (Json.bool false, r)
        | _ => none
      else if c = 'n' then
        match rest with
        | 'u' :: 'l' :: 'l' :: r => some (Json.null, r)
        | _ => none
      else
        match parseNum (c :: rest) with
        | some (v, r) => some (Json.num v, r)
        | none => none

/-- Parse the fields of a JSON object up to the closing brace. -/
def parseFields : Nat → List Char → Option (List (String × Json) × List Char)
  | 0, _ => none
  | fuel + 1, cs =>
    match skipWs cs with
    | '\"' :: rest =>
      match parseStrChars rest with
      | some (k, r1) =>
        match skipWs r1 with
        | ':' :: r2 =>
          match parseVal fuel r2 with
          | some (v, r3) =>
            match skipWs r3 with
            | ',' :: r4 =>
              match parseFields fuel r4 with
              | some (fs, r5) => some ((⟨k⟩, v) :: fs, r5)
              | none => none
            | c :: r4 =>
              if c = rbrace then some ([(⟨k⟩, v)], r4) else none
            | [] => none
          | none => none
        | _ => none
      | none => none
    | _ => none

/-- Parse the elements of a JSON array up to the closing bracket. -/
def parseElems : Nat → List Char → Option (List Json × List Char)
  | 0, _ => none
  | fuel + 1, cs =>
    match parseVal fuel cs with
    | some (v, r1) =>
      match skipWs r1 with
      | ',' :: r2 =>
        match parseElems fuel r2 with
        | some (es, r3) => some (v :: es, r3)
        | none => none
      | ']' :: r2 => some ([v], r2)
      | _ => none
    | none => none

end

/-- The JavaScript JSON.parse on our Json model: parse one value and
require only whitespace to remain; on any other input JSON.parse throws,
modelled by `none`. -/
def jsonParse (s : String) : Option Json :=
  match parseVal (2 * s.length + 2) s.toList with
  | some (j, rest) => if (skipWs rest).isEmpty then some j else none
  | none => none

/-- A route response: either a JSON body with HTTP 200, or an error body
with its HTTP status, as built by NextResponse.json in the routes. -/
inductive ApiOut where
  | ok (body : Json) : ApiOut
  | err (status : Nat) (msg : String) : ApiOut

/-- One upstream HTTP response from the Gemini service as the routes see
it after `fetch` and `response.json()`: the ok flag and status of the
response, and the candidate text at
`result.candidates?.[0]?.content?.parts?.[0]?.text` (`none` when any step
of that optional chain is missing). -/
structure UpstreamHttp where
  ok : Bool
  status : Nat
  statusText : String
  candidateText : Option String

/-- The role of a transcript entry; the source uses the string union
"host" | "team". -/
inductive Role where
  | host : Role
  | team : Role
deriving DecidableEq

/-- A transcript entry as created by the interview page: role, content,
and a Firestore timestamp (modelled as a natural number). -/
structure TranscriptEntry where
  role : Role
  content : String
  timestamp : Nat
deriving DecidableEq

/-- A scenario as generated and then fixed at simulation creation. -/
structure Scenario where
  title : String
  description : String
  keyDecision : String
deriving DecidableEq

/-- A simulation document in the Firestore `simulations` collection, as
created by the interview page and read by the analyzer route.  The
analysis field holds whatever JSON the analyzer persisted. -/
structure SimRecord where
  teamSize : Int
  domain : String
  scenario : Scenario
  status : String
  transcript : List TranscriptEntry
  analysis : Option Json
  createdAt : Nat

namespace NextPromptRoute

/-- Whether the text begins with the case-insensitive label "Host:", the
pattern of the regular expression of the source. -/
def matchHostLabel (cs : List Char) : Bool :=
  match cs with
  | c1 :: c2 :: c3 :: c4 :: c5 :: _ =>
    c1.toLower = 'h' && c2.toLower = 'o' && c3.toLower = 's'
      && c4.toLower = 't' && c5 = ':'
  | _ => false

/-- The response cleaning of the next-prompt route, from the source:
`nextPrompt.replace(/^Host:/i, "").replace(/"/g, "").trim()`.  The first
step removes a leading case-insensitive "Host:" label; the second removes
every double-quote character; the third trims whitespace. -/
def stripHostLabel (cs : List Char) : List Char :=
  if matchHostLabel cs then cs.drop 5 else cs

/-- The `.replace(/"/g, "")` step: remove every double quote. -/
def removeQuoteChars (cs : List Char) : List Char :=
  cs.filter (fun c => c != '\"')

/-- The cleaned host line returned by the next-prompt route. -/
def cleanedPrompt (s : String) : String :=
  ⟨trimChars (removeQuoteChars (stripHostLabel s.toList))⟩

/-- Modelled from the spec wording of the cleaning step, for comparison
with the source `cleanedPrompt`: remove a leading "Host:" label, remove
the surrounding quote characters only (one leading and one trailing
quote, when both are present), and trim whitespace, altering nothing
else. -/
def stripSurroundingQuotes (cs : List Char) : List Char :=
  if 2 ≤ cs.length ∧ cs.head? = some '\"' ∧ cs.getLast? = some '\"' then
    (cs.drop 1).dropLast
  else cs

/-- The cleaning operation as the spec describes it. -/
def cleanedPromptSpec (s : String) : String :=
  ⟨trimChars (stripSurroundingQuotes (stripHostLabel s.toList))⟩

end NextPromptRoute

namespace GenRoute

/-- The request body of the scenario-generation route; `none` models a
missing or non-numeric (resp. non-string) field. -/
structure GenReq where
  teamSize : Option Int
  domain : Option String

/-- The validation of teamSize from the source:
`!teamSize || typeof teamSize !== "number" || teamSize <= 0` rejects, so
the value passes exactly when it is a number greater than zero. -/
def validTeamSize : Option Int → Bool
  | none => false
  | some n => decide (0 < n)

/-- The validation of domain from the source:
`!domain || typeof domain !== "string" || domain.trim() === ""` rejects,
so the value passes exactly when it is a string with non-blank content. -/
def validDomain : Option String → Bool
  | none => false
  | some s => jsTrim s != ""

/-- The declared response schema of the scenario-generation route: an
array of objects.  Mirrors the `responseSchema` constant of the source. -/
structure ScenarioArraySchema where
  itemProperties : List String
  itemRequired : List String
  minItems : Nat
  maxItems : Nat

/-- The `responseSchema` constant of the scenario-generation route. -/
def responseSchema : ScenarioArraySchema where
  itemProperties := ["title", "description", "keyDecision"]
  itemRequired := ["title", "description", "keyDecision"]
  minItems := 10
  maxItems := 10

/-- Result of one invocation of the route: the HTTP response and whether
the upstream fetch was reached. -/
structure GenResult where
  response : ApiOut
  fetchCalled : Bool

/-- The POST handler of the scenario-generation route.  After validation
it calls the upstream service, extracts the candidate text, parses it
with JSON.parse, and returns the parsed value as the 200 body without any
further validation of item count or item fields.  Error-message strings
follow the source with quote marks around identifiers elided. -/
def POST (req : GenReq) (u : UpstreamHttp) : GenResult :=
  if !validTeamSize req.teamSize then
    ⟨ApiOut.err 400 "Invalid teamSize provided. Must be a positive number.", false⟩
  else if !validDomain req.domain then
    ⟨ApiOut.err 400 "Invalid domain provided. Must be a non-empty string.", false⟩
  else if !u.ok then
    ⟨ApiOut.err u.status ("Gemini API error: " ++ u.statusText), true⟩
  else
    match u.candidateText with
    | none => ⟨ApiOut.err 500 "Invalid response structure from AI model", true⟩
    | some t =>
      if t = "" then ⟨ApiOut.err 500 "Invalid response structure from AI model", true⟩
      else
        match jsonParse t with
        | none => ⟨ApiOut.err 500 "Failed to parse AI response as JSON.", true⟩
        | some j => ⟨ApiOut.ok j, true⟩

end GenRoute

namespace MakeInterviewRoute

/-- Index of the last occurrence of a character in a list, modelling the
JavaScript lastIndexOf (with `none` for the -1 case). -/
def lastIdxOf (cs : List Char) (c : Char) : Option Nat :=
  (List.findIdx? (fun x => x = c) cs.reverse).map (fun i => cs.length - 1 - i)

/-- The brace-extraction step of the opening-prompt route: trim the text;
if it does not start with a left brace, and a left brace occurs strictly
before a right brace somewhere in it, take the slice from the first left
brace to the last right brace inclusive; otherwise keep the trimmed text. -/
def extractJsonText (text : String) : String :=
  let t := jsTrim text
  let cs := t.toList
  match cs with
  | [] => t
  | c :: _ =>
    if c = lbrace then t
    else
      match List.findIdx? (fun x => x = lbrace) cs, lastIdxOf cs rbrace with
      | some f, some l => if f < l then ⟨(cs.drop f).take (l + 1 - f)⟩ else t
      | _, _ => t

/-- The candidate-text handling of the opening-prompt route (the part of
POST after the upstream response arrives): reject a missing or blank
candidate, extract the JSON text, parse it, and require a truthy
openingPrompt field. -/
def handleCandidateText (text : Option String) : ApiOut :=
  match text with
  | none => ApiOut.err 500 "Invalid response structure from AI model"
  | some raw =>
    if jsTrim raw = "" then ApiOut.err 500 "Invalid response structure from AI model"
    else
      match jsonParse (extractJsonText raw) with
      | none => ApiOut.err 500 "Failed to parse AI response as JSON."
      | some parsed =>
        match jsGet parsed "openingPrompt" with
        | some v =>
          if jsTruthy v then ApiOut.ok (Json.obj [("openingPrompt", v)])
          else ApiOut.err 500 "AI response missing openingPrompt"
        | none => ApiOut.err 500 "AI response missing openingPrompt"

end MakeInterviewRoute

namespace AnalyzeRoute

/-- The result of one invocation of the analyzer route: the HTTP
response, the Firestore write it performed (the analysis value and the
status string of the single updateDoc call, or `none` when nothing was
written), and how many upstream generation calls it issued. -/
structure AnalyzeResult where
  response : ApiOut
  write : Option (Json × String)
  genCalls : Nat

/-- The generation part of the analyzer route, reached when no stored
analysis short-circuits: call the upstream model once, extract and parse
the candidate text, persist `{analysis, status: "analyzed"}` in one
update, and return the parsed analysis.  The JSON.parse failure message
is generated by the JavaScript runtime; it is modelled by a fixed
string. -/
def generate (u : UpstreamHttp) : AnalyzeResult :=
  if !u.ok then ⟨ApiOut.err 500 ("Gemini API error: " ++ u.statusText), none, 1⟩
  else
    match u.candidateText with
    | none => ⟨ApiOut.err 500 "Invalid response structure from AI model", none, 1⟩
    | some t =>
      if t = "" then ⟨ApiOut.err 500 "Invalid response structure from AI model", none, 1⟩
      else
        match jsonParse t with
        | none => ⟨ApiOut.err 500 "Unexpected token in JSON", none, 1⟩
        | some a => ⟨ApiOut.ok a, some (a, "analyzed"), 1⟩

/-- The POST handler of the analyzer route: require a document id, fail
with 404 when the record is absent, fail with 400 when the transcript has
fewer than two entries, return a truthy stored analysis unchanged, and
otherwise generate, persist, and return a fresh analysis. -/
def POST (docId : Option String) (rec : Option SimRecord) (u : UpstreamHttp) : AnalyzeResult :=
  match docId with
  | none => ⟨ApiOut.err 400 "No document ID provided", none, 0⟩
  | some id =>
    if id = "" then ⟨ApiOut.err 400 "No document ID provided", none, 0⟩
    else
      match rec with
      | none => ⟨ApiOut.err 404 "Simulation not found", none, 0⟩
      | some sim =>
        if sim.transcript.length < 2 then
          ⟨ApiOut.err 400 "Transcript is too short to analyze", none, 0⟩
        else
          match sim.analysis with
          | some a => if jsTruthy a then ⟨ApiOut.ok a, none, 0⟩ else generate u
          | none => generate u

/-- Apply the Firestore write of an analyzer invocation to the record it
read, giving the record a later read would see. -/
def applyWrite (rec : SimRecord) : Option (Json × String) → SimRecord
  | none => rec
  | some (a, st) => { rec with analysis := some a, status := st }

/-- The top-level required list and the property names of the
`responseSchema` constant of the analyzer route, together with the
property names and the (absent, hence empty) required list of its
heatmapData sub-schema. -/
structure AnalysisSchemaModel where
  required : List String
  properties : List String
  heatmapProperties : List String
  heatmapRequired : List String

/-- The `responseSchema` constant of the analyzer route.  Its top level
requires the five named fields; its heatmapData sub-schema declares the
six metric properties but carries no required list. -/
def responseSchema : AnalysisSchemaModel where
  required := ["overallScore", "keyStrengths", "growthAreas", "actionableFeedback", "heatmapData"]
  properties := ["overallScore", "keyStrengths", "growthAreas", "actionableFeedback", "heatmapData"]
  heatmapProperties := ["Decisiveness", "Ethical Focus", "Data-Driven",
    "Long-Term Thinking", "Bias for Action", "Collaboration"]
  heatmapRequired := []

/-- The keys of the heatmapData field of a persisted analysis value. -/
def heatmapKeys (a : Json) : List String :=
  match jsGet a "heatmapData" with
  | some (Json.obj fields) => fields.map (fun p => p.1)
  | _ => []

end AnalyzeRoute

namespace InterviewPage

/-- The response of the next-prompt fetch as `handleSubmitResponse` sees
it: the ok flag of the HTTP response and the parsed JSON body. -/
structure NextPromptResp where
  ok : Bool
  body : Json

/-- The host line accepted by `handleSubmitResponse`: the fetch must be
ok and `data?.nextPrompt` must be a non-empty string (the source throws
on `!nextPrompt || typeof nextPrompt !== "string"`). -/
def hostReplyOk (resp : NextPromptResp) : Option String :=
  if resp.ok then
    match jsGet resp.body "nextPrompt" with
    | some (Json.str s) => if s = "" then none else some s
    | _ => none
  else none

/-- The outcome of one `handleSubmitResponse` call: the final record
state, the transcript persisted by the first updateDoc (before the
next-prompt fetch), and the transcript persisted by the second updateDoc
when that point is reached. -/
structure SubmitResult where
  record : SimRecord
  persistedAfterTeam : Option (List TranscriptEntry)
  persistedFinal : Option (List TranscriptEntry)

/-- The `handleSubmitResponse` function of the interview page, for a page
whose simulation document exists.  A blank response is a no-op (the
guard).  Otherwise the team entry is appended and persisted first; only
then is the next host line requested, and on success the host entry is
appended and persisted.  On failure the catch block leaves the team entry
in place. -/
def handleSubmitResponse (rec : SimRecord) (userResponse : String) (tTeam : Nat)
    (resp : NextPromptResp) (tHost : Nat) : SubmitResult :=
  if jsTrim userResponse = "" then ⟨rec, none, none⟩
  else
    let newTranscript := rec.transcript ++ [⟨Role.team, userResponse, tTeam⟩]
    match hostReplyOk resp with
    | none => ⟨{ rec with transcript := newTranscript }, some newTranscript, none⟩
    | some s =>
      let finalTranscript := newTranscript ++ [⟨Role.host, s, tHost⟩]
      ⟨{ rec with transcript := finalTranscript }, some newTranscript, some finalTranscript⟩

/-- Count the entries of a given role in a transcript. -/
def countRole (r : Role) (l : List TranscriptEntry) : Nat :=
  (l.filter (fun e => e.role == r)).length

/-- One operation on a simulation record after creation: a team
submission turn (successful or not, as decided by the upstream response),
the finish button, or an analyzer invocation applied through its write
effect. -/
inductive SimOp where
  | submit (content : String) (tTeam : Nat) (resp : NextPromptResp) (tHost : Nat) : SimOp
  | finishSim : SimOp
  | analyzeStep (id : String) (u : UpstreamHttp) : SimOp

/-- Apply one operation to the persisted record, as the source does:
`handleSubmitResponse` for a turn, the status write of
`handleFinishSimulation` for finish, and the write effect of the analyzer
route for analyze. -/
def applyOp (rec : SimRecord) : SimOp → SimRecord
  | SimOp.submit c tT resp tH => (handleSubmitResponse rec c tT resp tH).record
  | SimOp.finishSim => { rec with status := "completed" }
  | SimOp.analyzeStep id u => AnalyzeRoute.applyWrite rec (AnalyzeRoute.POST (some id) (some rec) u).write

end InterviewPage

/-- Trimming only removes characters. -/
theorem trimChars_sublist (cs : List Char) : List.Sublist (trimChars cs) cs := by
  have h1 := List.rdropWhile_prefix isWsChar (cs.dropWhile isWsChar)
  have h2 := List.dropWhile_suffix (l := cs) isWsChar
  exact h1.sublist.trans h2.sublist

/-- The host-label strip only removes characters. -/
theorem stripHostLabel_sublist (cs : List Char) :
    List.Sublist (NextPromptRoute.stripHostLabel cs) cs := by
  unfold NextPromptRoute.stripHostLabel
  by_cases h : NextPromptRoute.matchHostLabel cs
  · simpa [h] using (List.drop_suffix 5 cs).sublist
  · simp [h]

/-- Claim C7 (amended): the cleaned host line is obtained from the raw
model output purely by deletions, and every double-quote character, not
only a surrounding pair, is deleted: the cleaned line is a sublist of the
raw output and contains no quote character. -/
theorem cleanedPrompt_deletions_only (s : String) :
    List.Sublist (NextPromptRoute.cleanedPrompt s).toList s.toList ∧
      '\"' ∉ (NextPromptRoute.cleanedPrompt s).toList := by
  constructor
  · show List.Sublist
      (trimChars (NextPromptRoute.removeQuoteChars (NextPromptRoute.stripHostLabel s.toList)))
      s.toList
    have h1 := trimChars_sublist
      (NextPromptRoute.removeQuoteChars (NextPromptRoute.stripHostLabel s.toList))
    have h2 := List.filter_sublist (p := fun c => c != '\"')
      (NextPromptRoute.stripHostLabel s.toList)
    have h3 := stripHostLabel_sublist s.toList
    exact (h1.trans h2).trans h3
  · intro hmem
    have h1 : '\"' ∈ NextPromptRoute.removeQuoteChars (NextPromptRoute.stripHostLabel s.toList) :=
      (trimChars_sublist _).subset hmem
    have h2 := List.mem_filter.mp h1
    simp at h2

/-- Claim C7 counterexample: on the raw output `Say "stop" now` the route
removes the interior quotes, while the cleaning described by the spec
(leading label, surrounding quotes, edge whitespace only) leaves the text
unchanged; so the route alters a part of the output the claim says is
untouched. -/
theorem cleanedPrompt_alters_interior :
    NextPromptRoute.cleanedPrompt "Say \"stop\" now" = "Say stop now" ∧
    NextPromptRoute.cleanedPromptSpec "Say \"stop\" now" = "Say \"stop\" now" ∧
    NextPromptRoute.cleanedPrompt "Say \"stop\" now" ≠
      NextPromptRoute.cleanedPromptSpec "Say \"stop\" now" := by
  refine ⟨rfl, rfl, ?_⟩
  decide

/-- Claim C6: whenever teamSize fails validation (missing or not a
positive number) or domain fails validation (missing or blank), the
scenario-generation route answers HTTP 400 with the matching message and
the upstream fetch is never reached. -/
theorem gen_invalid_input_rejected_before_network
    (req : GenRoute.GenReq) (u : UpstreamHttp)
    (h : GenRoute.validTeamSize req.teamSize = false ∨
         GenRoute.validDomain req.domain = false) :
    (GenRoute.POST req u).fetchCalled = false ∧
      ((GenRoute.POST req u).response
          = ApiOut.err 400 "Invalid teamSize provided. Must be a positive number." ∨
        (GenRoute.POST req u).response
          = ApiOut.err 400 "Invalid domain provided. Must be a non-empty string.") := by
  cases hT : GenRoute.validTeamSize req.teamSize with
  | false => simp [GenRoute.POST, hT]
  | true =>
    cases hD : GenRoute.validDomain req.domain with
    | false => simp [GenRoute.POST, hT, hD]
    | true => rcases h with h | h <;> simp [hT, hD] at h

/-- Witness for claim C6 at teamSize 0. -/
theorem gen_invalid_input_rejected_before_network_witness :
    (GenRoute.POST ⟨some 0, some "Healthcare"⟩ ⟨true, 200, "OK", some "[]"⟩).fetchCalled = false ∧
      ((GenRoute.POST ⟨some 0, some "Healthcare"⟩ ⟨true, 200, "OK", some "[]"⟩).response
          = ApiOut.err 400 "Invalid teamSize provided. Must be a positive number." ∨
        (GenRoute.POST ⟨some 0, some "Healthcare"⟩ ⟨true, 200, "OK", some "[]"⟩).response
          = ApiOut.err 400 "Invalid domain provided. Must be a non-empty string.") :=
  gen_invalid_input_rejected_before_network ⟨some 0, some "Healthcare"⟩
    ⟨true, 200, "OK", some "[]"⟩ (Or.inl (by decide))

/-- Claim C1 counterexample: on valid input (teamSize 4, domain
Healthcare) and an upstream candidate text that is a JSON array of nine
empty objects, the scenario-generation route answers HTTP 200 with that
nine-item batch, whose items lack every required field; it neither
returns ten items nor fails. -/
theorem gen_returns_nine_item_batch :
    (GenRoute.POST ⟨some 4, some "Healthcare"⟩
        ⟨true, 200, "OK",
          some "[\x7b\x7d,\x7b\x7d,\x7b\x7d,\x7b\x7d,\x7b\x7d,\x7b\x7d,\x7b\x7d,\x7b\x7d,\x7b\x7d]"⟩).response
      = ApiOut.ok (Json.arr (List.replicate 9 (Json.obj []))) ∧
    (List.replicate 9 (Json.obj [] : Json)).length ≠ GenRoute.responseSchema.minItems ∧
    jsGet (Json.obj []) "title" = none := by
  refine ⟨rfl, by decide, rfl⟩

/-- Claim C1 (amended): the route forwards the exactly-ten constraint to
the upstream model in its declared schema (minItems and maxItems both 10,
the three fields required per item) but performs no server-side check of
the parsed batch: on valid input and a successful upstream call it
answers 200 with whatever JSON value the candidate text parses to. -/
theorem gen_forwards_parsed_batch_unvalidated :
    (GenRoute.responseSchema.minItems = 10 ∧ GenRoute.responseSchema.maxItems = 10 ∧
      GenRoute.responseSchema.itemRequired = ["title", "description", "keyDecision"]) ∧
    ∀ (req : GenRoute.GenReq) (u : UpstreamHttp) (t : String) (j : Json),
      GenRoute.validTeamSize req.teamSize = true →
      GenRoute.validDomain req.domain = true →
      u.ok = true → u.candidateText = some t → jsonParse t = some j →
      (GenRoute.POST req u).response = ApiOut.ok j ∧
        (GenRoute.POST req u).fetchCalled = true := by
  refine ⟨⟨rfl, rfl, rfl⟩, ?_⟩
  intro req u t j hT hD hok hct hp
  have ht : t ≠ "" := by
    intro he
    rw [he, show jsonParse "" = none from rfl] at hp
    exact Option.noConfusion hp
  simp [GenRoute.POST, hT, hD, hok, hct, ht, hp]

/-- Claim C10: when the trimmed raw output does not begin with a left
brace, the opening-prompt route parses the slice from the first left
brace to the last right brace; whenever that slice is valid JSON whose
openingPrompt field is a non-empty string, the route succeeds with that
string. -/
theorem makeinterview_tolerates_surrounding_text
    (text : String) (j : Json) (s : String)
    (hb : (jsTrim text).toList.head? ≠ some lbrace)
    (hp : jsonParse (MakeInterviewRoute.extractJsonText text) = some j)
    (ho : jsGet j "openingPrompt" = some (Json.str s))
    (hs : s ≠ "") :
    MakeInterviewRoute.handleCandidateText (some text)
      = ApiOut.ok (Json.obj [("openingPrompt", Json.str s)]) := by
  have htrim : jsTrim text ≠ "" := by
    intro he
    have hx : MakeInterviewRoute.extractJsonText text = "" := by
      simp [MakeInterviewRoute.extractJsonText, he]
    rw [hx, show jsonParse "" = none from rfl] at hp
    exact Option.noConfusion hp
  simp [MakeInterviewRoute.handleCandidateText, htrim, hp, ho, jsTruthy, hs]

/-- Witness for claim C10 on model output with commentary around the
JSON object. -/
theorem makeinterview_tolerates_surrounding_text_witness :
    MakeInterviewRoute.handleCandidateText
        (some "Sure! \x7b\"openingPrompt\":\"Welcome team\"\x7d Done.")
      = ApiOut.ok (Json.obj [("openingPrompt", Json.str "Welcome team")]) :=
  makeinterview_tolerates_surrounding_text
    "Sure! \x7b\"openingPrompt\":\"Welcome team\"\x7d Done."
    (Json.obj [("openingPrompt", Json.str "Welcome team")]) "Welcome team"
    (by decide) rfl rfl (by decide)

/-- The analyzer short-circuits on a truthy stored analysis. -/
theorem analyze_post_cached (id : String) (sim : SimRecord) (u : UpstreamHttp) (a : Json)
    (hid : id ≠ "") (hlen : ¬ sim.transcript.length < 2)
    (hana : sim.analysis = some a) (htr : jsTruthy a = true) :
    AnalyzeRoute.POST (some id) (some sim) u = ⟨ApiOut.ok a, none, 0⟩ := by
  simp [AnalyzeRoute.POST, hid, hlen, hana, htr]

/-- With no stored analysis the analyzer runs the generation step. -/
theorem analyze_post_fresh (id : String) (sim : SimRecord) (u : UpstreamHttp)
    (hid : id ≠ "") (hlen : ¬ sim.transcript.length < 2)
    (hana : sim.analysis = none) :
    AnalyzeRoute.POST (some id) (some sim) u = AnalyzeRoute.generate u := by
  simp [AnalyzeRoute.POST, hid, hlen, hana]

/-- With a falsy stored analysis the analyzer also runs the generation
step (JavaScript truthiness of the stored value gates the cache). -/
theorem analyze_post_stale (id : String) (sim : SimRecord) (u : UpstreamHttp) (a : Json)
    (hid : id ≠ "") (hlen : ¬ sim.transcript.length < 2)
    (hana : sim.analysis = some a) (htr : jsTruthy a = false) :
    AnalyzeRoute.POST (some id) (some sim) u = AnalyzeRoute.generate u := by
  simp [AnalyzeRoute.POST, hid, hlen, hana, htr]

/-- A successful generation step returns the parsed analysis, writes it
with status analyzed, and counts one upstream call. -/
theorem analyze_generate_ok (u : UpstreamHttp) (a : Json)
    (h : (AnalyzeRoute.generate u).response = ApiOut.ok a) :
    AnalyzeRoute.generate u = ⟨ApiOut.ok a, some (a, "analyzed"), 1⟩ := by
  unfold AnalyzeRoute.generate at h ⊢
  cases hok : u.ok with
  | false => simp [hok] at h
  | true =>
    cases hct : u.candidateText with
    | none => simp [hok, hct] at h
    | some t =>
      by_cases ht : t = ""
      · simp [hok, hct, ht] at h
      · cases hp : jsonParse t with
        | none => simp [hok, hct, ht, hp] at h
        | some a2 =>
          simp only [hok, hct, ht, hp] at h ⊢
          simp at h
          subst h
          simp

/-- Claim C5: the analyzer answers 404 when no record exists for the id,
and 400 with nothing written and no generation call when the transcript
has fewer than two entries. -/
theorem analyze_notfound_and_insufficient :
    (∀ (id : String) (u : UpstreamHttp), id ≠ "" →
      AnalyzeRoute.POST (some id) none u
        = ⟨ApiOut.err 404 "Simulation not found", none, 0⟩) ∧
    (∀ (id : String) (sim : SimRecord) (u : UpstreamHttp), id ≠ "" →
      sim.transcript.length < 2 →
      AnalyzeRoute.POST (some id) (some sim) u
        = ⟨ApiOut.err 400 "Transcript is too short to analyze", none, 0⟩) := by
  constructor
  · intro id u hid
    simp [AnalyzeRoute.POST, hid]
  · intro id sim u hid hlen
    simp [AnalyzeRoute.POST, hid, hlen]

/-- Witness for claim C5: a missing record and a one-entry record. -/
theorem analyze_notfound_and_insufficient_witness :
    AnalyzeRoute.POST (some "sim0") none ⟨true, 200, "OK", none⟩
        = ⟨ApiOut.err 404 "Simulation not found", none, 0⟩ ∧
      AnalyzeRoute.POST (some "sim0")
          (some ⟨2, "Ops", ⟨"t", "d", "k"⟩, "pending", [⟨Role.host, "open", 0⟩], none, 0⟩)
          ⟨true, 200, "OK", none⟩
        = ⟨ApiOut.err 400 "Transcript is too short to analyze", none, 0⟩ :=
  ⟨analyze_notfound_and_insufficient.1 "sim0" ⟨true, 200, "OK", none⟩ (by decide),
    analyze_notfound_and_insufficient.2 "sim0"
      ⟨2, "Ops", ⟨"t", "d", "k"⟩, "pending", [⟨Role.host, "open", 0⟩], none, 0⟩
      ⟨true, 200, "OK", none⟩ (by decide) (by decide)⟩

/-- Claim C9: on a record whose analysis is already set but whose
transcript is shorter than two entries, the analyzer returns the
insufficient-data error, not the stored analysis, and writes nothing:
the length check runs before the stored-analysis short circuit. -/
theorem analyze_length_check_precedes_cache
    (id : String) (sim : SimRecord) (u : UpstreamHttp) (a : Json)
    (hid : id ≠ "") (ha : sim.analysis = some a) (hlen : sim.transcript.length < 2) :
    (AnalyzeRoute.POST (some id) (some sim) u).response
        = ApiOut.err 400 "Transcript is too short to analyze" ∧
      (AnalyzeRoute.POST (some id) (some sim) u).response ≠ ApiOut.ok a ∧
      (AnalyzeRoute.POST (some id) (some sim) u).write = none := by
  simp [AnalyzeRoute.POST, hid, hlen]

/-- Witness for claim C9: analysis present, transcript of length one. -/
theorem analyze_length_check_precedes_cache_witness :
    (AnalyzeRoute.POST (some "sim9")
        (some ⟨3, "Fin", ⟨"t", "d", "k"⟩, "pending", [⟨Role.host, "open", 0⟩],
          some (Json.obj [("overallScore", Json.num 70)]), 0⟩)
        ⟨true, 200, "OK", none⟩).response
        = ApiOut.err 400 "Transcript is too short to analyze" ∧
      (AnalyzeRoute.POST (some "sim9")
        (some ⟨3, "Fin", ⟨"t", "d", "k"⟩, "pending", [⟨Role.host, "open", 0⟩],
          some (Json.obj [("overallScore", Json.num 70)]), 0⟩)
        ⟨true, 200, "OK", none⟩).response ≠ ApiOut.ok (Json.obj [("overallScore", Json.num 70)]) ∧
      (AnalyzeRoute.POST (some "sim9")
        (some ⟨3, "Fin", ⟨"t", "d", "k"⟩, "pending", [⟨Role.host, "open", 0⟩],
          some (Json.obj [("overallScore", Json.num 70)]), 0⟩)
        ⟨true, 200, "OK", none⟩).write = none :=
  analyze_length_check_precedes_cache "sim9"
    ⟨3, "Fin", ⟨"t", "d", "k"⟩, "pending", [⟨Role.host, "open", 0⟩],
      some (Json.obj [("overallScore", Json.num 70)]), 0⟩
    ⟨true, 200, "OK", none⟩ (Json.obj [("overallScore", Json.num 70)]) (by decide) rfl (by decide)

/-- Claim C2: on a record with at least two transcript entries, a
successful analyze followed by a second analyze of the updated record
returns the same analysis value both times, the second call neither
calls the model nor writes, the two calls together issue at most one
generation call, and a record whose analysis is already set is returned
unchanged with no call and no write. -/
theorem analyze_idempotent_single_generation
    (id : String) (sim : SimRecord) (u1 u2 : UpstreamHttp) (a : Json)
    (hid : id ≠ "")
    (hlen : ¬ sim.transcript.length < 2)
    (htr : jsTruthy a = true)
    (h1 : (AnalyzeRoute.POST (some id) (some sim) u1).response = ApiOut.ok a) :
    (AnalyzeRoute.POST (some id)
        (some (AnalyzeRoute.applyWrite sim (AnalyzeRoute.POST (some id) (some sim) u1).write)) u2).response
      = ApiOut.ok a ∧
    (AnalyzeRoute.POST (some id)
        (some (AnalyzeRoute.applyWrite sim (AnalyzeRoute.POST (some id) (some sim) u1).write)) u2).write
      = none ∧
    (AnalyzeRoute.POST (some id)
        (some (AnalyzeRoute.applyWrite sim (AnalyzeRoute.POST (some id) (some sim) u1).write)) u2).genCalls
      = 0 ∧
    (AnalyzeRoute.POST (some id) (some sim) u1).genCalls
        + (AnalyzeRoute.POST (some id)
            (some (AnalyzeRoute.applyWrite sim (AnalyzeRoute.POST (some id) (some sim) u1).write)) u2).genCalls
      ≤ 1 ∧
    (∀ a0 : Json, sim.analysis = some a0 → jsTruthy a0 = true →
      AnalyzeRoute.POST (some id) (some sim) u1 = ⟨ApiOut.ok a0, none, 0⟩) := by
  cases hana : sim.analysis with
  | some a0 =>
    cases htr0 : jsTruthy a0 with
    | true =>
      have hm := analyze_post_cached id sim u1 a0 hid hlen hana htr0
      rw [hm] at h1
      have ha0 : a0 = a := by simpa using h1
      subst ha0
      rw [hm]
      rw [show (⟨ApiOut.ok a0, none, 0⟩ : AnalyzeRoute.AnalyzeResult).write = none from rfl]
      rw [show AnalyzeRoute.applyWrite sim none = sim from rfl]
      rw [analyze_post_cached id sim u2 a0 hid hlen hana htr0]
      refine ⟨rfl, rfl, rfl, by simp, ?_⟩
      intro a1 h1' _
      injection h1' with he
      subst he
      rfl
    | false =>
      have hm := analyze_post_stale id sim u1 a0 hid hlen hana htr0
      rw [hm] at h1
      have hg := analyze_generate_ok u1 a h1
      rw [hm, hg]
      rw [show (⟨ApiOut.ok a, some (a, "analyzed"), 1⟩ : AnalyzeRoute.AnalyzeResult).write
            = some (a, "analyzed") from rfl]
      have hlen2 : ¬ (AnalyzeRoute.applyWrite sim (some (a, "analyzed"))).transcript.length < 2 :=
        hlen
      have hana2 : (AnalyzeRoute.applyWrite sim (some (a, "analyzed"))).analysis = some a := rfl
      rw [analyze_post_cached id (AnalyzeRoute.applyWrite sim (some (a, "analyzed"))) u2 a
        hid hlen2 hana2 htr]
      refine ⟨rfl, rfl, rfl, by simp, ?_⟩
      intro a1 h1' htr1
      injection h1' with he
      subst he
      rw [htr0] at htr1
      exact absurd htr1 (by decide)
  | none =>
    have hm := analyze_post_fresh id sim u1 hid hlen hana
    rw [hm] at h1
    have hg := analyze_generate_ok u1 a h1
    rw [hm, hg]
    rw [show (⟨ApiOut.ok a, some (a, "analyzed"), 1⟩ : AnalyzeRoute.AnalyzeResult).write
          = some (a, "analyzed") from rfl]
    have hlen2 : ¬ (AnalyzeRoute.applyWrite sim (some (a, "analyzed"))).transcript.length < 2 :=
      hlen
    have hana2 : (AnalyzeRoute.applyWrite sim (some (a, "analyzed"))).analysis = some a := rfl
    rw [analyze_post_cached id (AnalyzeRoute.applyWrite sim (some (a, "analyzed"))) u2 a
      hid hlen2 hana2 htr]
    refine ⟨rfl, rfl, rfl, by simp, ?_⟩
    intro a1 h1' _
    exact Option.noConfusion h1'

/-- Witness for claim C2: a fresh record analyzed twice, the second call
with an unreachable upstream. -/
theorem analyze_idempotent_single_generation_witness :
    (AnalyzeRoute.POST (some "sim2")
        (some (AnalyzeRoute.applyWrite
          ⟨4, "Ops", ⟨"t", "d", "k"⟩, "completed",
            [⟨Role.host, "a", 0⟩, ⟨Role.team, "b", 1⟩], none, 0⟩
          (AnalyzeRoute.POST (some "sim2")
            (some ⟨4, "Ops", ⟨"t", "d", "k"⟩, "completed",
              [⟨Role.host, "a", 0⟩, ⟨Role.team, "b", 1⟩], none, 0⟩)
            ⟨true, 200, "OK", some "\x7b\"overallScore\":77\x7d"⟩).write))
        ⟨false, 500, "ERR", none⟩).response
      = ApiOut.ok (Json.obj [("overallScore", Json.num 77)]) ∧
    (AnalyzeRoute.POST (some "sim2")
        (some (AnalyzeRoute.applyWrite
          ⟨4, "Ops", ⟨"t", "d", "k"⟩, "completed",
            [⟨Role.host, "a", 0⟩, ⟨Role.team, "b", 1⟩], none, 0⟩
          (AnalyzeRoute.POST (some "sim2")
            (some ⟨4, "Ops", ⟨"t", "d", "k"⟩, "completed",
              [⟨Role.host, "a", 0⟩, ⟨Role.team, "b", 1⟩], none, 0⟩)
            ⟨true, 200, "OK", some "\x7b\"overallScore\":77\x7d"⟩).write))
        ⟨false, 500, "ERR", none⟩).write
      = none ∧
    (AnalyzeRoute.POST (some "sim2")
        (some (AnalyzeRoute.applyWrite
          ⟨4, "Ops", ⟨"t", "d", "k"⟩, "completed",
            [⟨Role.host, "a", 0⟩, ⟨Role.team, "b", 1⟩], none, 0⟩
          (AnalyzeRoute.POST (some "sim2")
            (some ⟨4, "Ops", ⟨"t", "d", "k"⟩, "completed",
              [⟨Role.host, "a", 0⟩, ⟨Role.team, "b", 1⟩], none, 0⟩)
            ⟨true, 200, "OK", some "\x7b\"overallScore\":77\x7d"⟩).write))
        ⟨false, 500, "ERR", none⟩).genCalls
      = 0 ∧
    (AnalyzeRoute.POST (some "sim2")
        (some ⟨4, "Ops", ⟨"t", "d", "k"⟩, "completed",
          [⟨Role.host, "a", 0⟩, ⟨Role.team, "b", 1⟩], none, 0⟩)
        ⟨true, 200, "OK", some "\x7b\"overallScore\":77\x7d"⟩).genCalls
        + (AnalyzeRoute.POST (some "sim2")
            (some (AnalyzeRoute.applyWrite
              ⟨4, "Ops", ⟨"t", "d", "k"⟩, "completed",
                [⟨Role.host, "a", 0⟩, ⟨Role.team, "b", 1⟩], none, 0⟩
              (AnalyzeRoute.POST (some "sim2")
                (some ⟨4, "Ops", ⟨"t", "d", "k"⟩, "completed",
                  [⟨Role.host, "a", 0⟩, ⟨Role.team, "b", 1⟩], none, 0⟩)
                ⟨true, 200, "OK", some "\x7b\"overallScore\":77\x7d"⟩).write))
            ⟨false, 500, "ERR", none⟩).genCalls
      ≤ 1 ∧
    (∀ a0 : Json,
      (⟨4, "Ops", ⟨"t", "d", "k"⟩, "completed",
        [⟨Role.host, "a", 0⟩, ⟨Role.team, "b", 1⟩], none, 0⟩ : SimRecord).analysis = some a0 →
      jsTruthy a0 = true →
      AnalyzeRoute.POST (some "sim2")
          (some ⟨4, "Ops", ⟨"t", "d", "k"⟩, "completed",
            [⟨Role.host, "a", 0⟩, ⟨Role.team, "b", 1⟩], none, 0⟩)
          ⟨true, 200, "OK", some "\x7b\"overallScore\":77\x7d"⟩
        = ⟨ApiOut.ok a0, none, 0⟩) :=
  analyze_idempotent_single_generation "sim2"
    ⟨4, "Ops", ⟨"t", "d", "k"⟩, "completed",
      [⟨Role.host, "a", 0⟩, ⟨Role.team, "b", 1⟩], none, 0⟩
    ⟨true, 200, "OK", some "\x7b\"overallScore\":77\x7d"⟩ ⟨false, 500, "ERR", none⟩
    (Json.obj [("overallScore", Json.num 77)]) (by decide) (by decide) (by decide) rfl

/-- Claim C8 counterexample: the analyzer persists and returns, with
HTTP 200, a parsed model output whose heatmapData has no keys at all and
which lacks overallScore entirely; the produced analysis does not carry
the six fixed metric keys. -/
theorem analyze_persists_sparse_analysis :
    AnalyzeRoute.POST (some "sim1")
        (some ⟨4, "Healthcare", ⟨"t", "d", "k"⟩, "completed",
          [⟨Role.host, "open", 0⟩, ⟨Role.team, "resp", 1⟩], none, 0⟩)
        ⟨true, 200, "OK", some "\x7b\"heatmapData\":\x7b\x7d\x7d"⟩
      = ⟨ApiOut.ok (Json.obj [("heatmapData", Json.obj [])]),
          some (Json.obj [("heatmapData", Json.obj [])], "analyzed"), 1⟩ ∧
    jsGet (Json.obj [("heatmapData", Json.obj [])]) "overallScore" = none ∧
    AnalyzeRoute.heatmapKeys (Json.obj [("heatmapData", Json.obj [])]) = [] ∧
    AnalyzeRoute.responseSchema.heatmapProperties ≠ [] := by
  refine ⟨rfl, rfl, rfl, by decide⟩

/-- Claim C8 (amended): the analyzer declares the five top-level fields
required in its schema and declares exactly the six fixed heatmap metric
properties, but marks none of the six required; and it persists the
parsed model output as is, without validating the heatmap key set. -/
theorem analyze_schema_and_unvalidated_persist :
    AnalyzeRoute.responseSchema.required
        = ["overallScore", "keyStrengths", "growthAreas", "actionableFeedback", "heatmapData"] ∧
    AnalyzeRoute.responseSchema.heatmapProperties
        = ["Decisiveness", "Ethical Focus", "Data-Driven", "Long-Term Thinking",
            "Bias for Action", "Collaboration"] ∧
    AnalyzeRoute.responseSchema.heatmapRequired = [] ∧
    ∀ (id : String) (sim : SimRecord) (u : UpstreamHttp) (t : String) (a : Json),
      id ≠ "" → ¬ sim.transcript.length < 2 → sim.analysis = none →
      u.ok = true → u.candidateText = some t → jsonParse t = some a →
      AnalyzeRoute.POST (some id) (some sim) u = ⟨ApiOut.ok a, some (a, "analyzed"), 1⟩ := by
  refine ⟨rfl, rfl, rfl, ?_⟩
  intro id sim u t a hid hlen hana hok hct hp
  have ht : t ≠ "" := by
    intro he
    rw [he, show jsonParse "" = none from rfl] at hp
    exact Option.noConfusion hp
  rw [analyze_post_fresh id sim u hid hlen hana]
  simp [AnalyzeRoute.generate, hok, hct, ht, hp]

/-- Witness for the amended claim C8. -/
theorem analyze_schema_and_unvalidated_persist_witness :
    AnalyzeRoute.POST (some "sim8")
        (some ⟨5, "Legal", ⟨"t", "d", "k"⟩, "completed",
          [⟨Role.host, "a", 0⟩, ⟨Role.team, "b", 1⟩], none, 0⟩)
        ⟨true, 200, "OK", some "\x7b\"overallScore\":80\x7d"⟩
      = ⟨ApiOut.ok (Json.obj [("overallScore", Json.num 80)]),
          some (Json.obj [("overallScore", Json.num 80)], "analyzed"), 1⟩ :=
  analyze_schema_and_unvalidated_persist.2.2.2 "sim8"
    ⟨5, "Legal", ⟨"t", "d", "k"⟩, "completed",
      [⟨Role.host, "a", 0⟩, ⟨Role.team, "b", 1⟩], none, 0⟩
    ⟨true, 200, "OK", some "\x7b\"overallScore\":80\x7d"⟩
    "\x7b\"overallScore\":80\x7d" (Json.obj [("overallScore", Json.num 80)])
    (by decide) (by decide) rfl rfl rfl rfl

/-- Witness for the amended claim C1 on an empty-array candidate. -/
theorem gen_forwards_parsed_batch_unvalidated_witness :
    (GenRoute.POST ⟨some 3, some "AI"⟩ ⟨true, 200, "OK", some "[]"⟩).response
        = ApiOut.ok (Json.arr []) ∧
      (GenRoute.POST ⟨some 3, some "AI"⟩ ⟨true, 200, "OK", some "[]"⟩).fetchCalled = true :=
  gen_forwards_parsed_batch_unvalidated.2 ⟨some 3, some "AI"⟩ ⟨true, 200, "OK", some "[]"⟩
    "[]" (Json.arr []) (by decide) (by decide) rfl rfl rfl

/-- Claim C3 counterexample: after a failed turn the transcript holds
host and team entries (length two); a successful retry submits the
response again, appending a new team entry and a host entry, so the
transcript reaches length four — it grows by two, not by one as the
claim states. -/
theorem submit_retry_grows_by_two :
    (InterviewPage.handleSubmitResponse
        ⟨4, "Healthcare", ⟨"t", "d", "k"⟩, "pending", [⟨Role.host, "Welcome", 0⟩], none, 0⟩
        "We comply" 1 ⟨false, Json.null⟩ 2).record.transcript.length = 2 ∧
    (InterviewPage.handleSubmitResponse
        (InterviewPage.handleSubmitResponse
          ⟨4, "Healthcare", ⟨"t", "d", "k"⟩, "pending", [⟨Role.host, "Welcome", 0⟩], none, 0⟩
          "We comply" 1 ⟨false, Json.null⟩ 2).record
        "We comply" 3 ⟨true, Json.obj [("nextPrompt", Json.str "And then?")]⟩ 4).record.transcript.length
      = 4 ∧
    (4 : Nat) ≠ 2 + 1 := by
  refine ⟨rfl, rfl, by decide⟩

/-- Claim C3 (amended): a failed turn persists the team entry before the
host call and leaves no host entry; a successful retry appends the
retried team entry and exactly one host entry, so the transcript grows
by exactly two entries of which exactly one is a host entry. -/
theorem submit_failure_then_retry
    (rec : SimRecord) (c c2 s : String) (tT tH tT2 tH2 : Nat)
    (respFail respOk : InterviewPage.NextPromptResp)
    (hc : jsTrim c ≠ "") (hc2 : jsTrim c2 ≠ "")
    (hfail : InterviewPage.hostReplyOk respFail = none)
    (hok : InterviewPage.hostReplyOk respOk = some s) :
    (InterviewPage.handleSubmitResponse rec c tT respFail tH).record.transcript
        = rec.transcript ++ [⟨Role.team, c, tT⟩] ∧
    (InterviewPage.handleSubmitResponse rec c tT respFail tH).persistedAfterTeam
        = some (rec.transcript ++ [⟨Role.team, c, tT⟩]) ∧
    (InterviewPage.handleSubmitResponse rec c tT respFail tH).persistedFinal = none ∧
    (InterviewPage.handleSubmitResponse
        (InterviewPage.handleSubmitResponse rec c tT respFail tH).record
        c2 tT2 respOk tH2).record.transcript
      = rec.transcript ++ [⟨Role.team, c, tT⟩, ⟨Role.team, c2, tT2⟩, ⟨Role.host, s, tH2⟩] ∧
    InterviewPage.countRole Role.host
        (InterviewPage.handleSubmitResponse
          (InterviewPage.handleSubmitResponse rec c tT respFail tH).record
          c2 tT2 respOk tH2).record.transcript
      = InterviewPage.countRole Role.host
          (InterviewPage.handleSubmitResponse rec c tT respFail tH).record.transcript + 1 ∧
    (InterviewPage.handleSubmitResponse
        (InterviewPage.handleSubmitResponse rec c tT respFail tH).record
        c2 tT2 respOk tH2).record.transcript.length
      = (InterviewPage.handleSubmitResponse rec c tT respFail tH).record.transcript.length + 2 := by
  have hteam : (Role.team == Role.host) = false := rfl
  have hhost : (Role.host == Role.host) = true := rfl
  simp [InterviewPage.handleSubmitResponse, hc, hc2, hfail, hok,
    InterviewPage.countRole, List.filter_append, hteam, hhost]

/-- Witness for the amended claim C3. -/
theorem submit_failure_then_retry_witness :
    (InterviewPage.handleSubmitResponse
        ⟨2, "Retail", ⟨"t", "d", "k"⟩, "pending", [⟨Role.host, "Hi", 0⟩], none, 0⟩
        "Plan A" 1 ⟨false, Json.null⟩ 2).record.transcript
        = [⟨Role.host, "Hi", 0⟩] ++ [⟨Role.team, "Plan A", 1⟩] ∧
    (InterviewPage.handleSubmitResponse
        ⟨2, "Retail", ⟨"t", "d", "k"⟩, "pending", [⟨Role.host, "Hi", 0⟩], none, 0⟩
        "Plan A" 1 ⟨false, Json.null⟩ 2).persistedAfterTeam
        = some ([⟨Role.host, "Hi", 0⟩] ++ [⟨Role.team, "Plan A", 1⟩]) ∧
    (InterviewPage.handleSubmitResponse
        ⟨2, "Retail", ⟨"t", "d", "k"⟩, "pending", [⟨Role.host, "Hi", 0⟩], none, 0⟩
        "Plan A" 1 ⟨false, Json.null⟩ 2).persistedFinal = none ∧
    (InterviewPage.handleSubmitResponse
        (InterviewPage.handleSubmitResponse
          ⟨2, "Retail", ⟨"t", "d", "k"⟩, "pending", [⟨Role.host, "Hi", 0⟩], none, 0⟩
          "Plan A" 1 ⟨false, Json.null⟩ 2).record
        "Plan B" 3 ⟨true, Json.obj [("nextPrompt", Json.str "Go on")]⟩ 4).record.transcript
      = [⟨Role.host, "Hi", 0⟩]
          ++ [⟨Role.team, "Plan A", 1⟩, ⟨Role.team, "Plan B", 3⟩, ⟨Role.host, "Go on", 4⟩] ∧
    InterviewPage.countRole Role.host
        (InterviewPage.handleSubmitResponse
          (InterviewPage.handleSubmitResponse
            ⟨2, "Retail", ⟨"t", "d", "k"⟩, "pending", [⟨Role.host, "Hi", 0⟩], none, 0⟩
            "Plan A" 1 ⟨false, Json.null⟩ 2).record
          "Plan B" 3 ⟨true, Json.obj [("nextPrompt", Json.str "Go on")]⟩ 4).record.transcript
      = InterviewPage.countRole Role.host
          (InterviewPage.handleSubmitResponse
            ⟨2, "Retail", ⟨"t", "d", "k"⟩, "pending", [⟨Role.host, "Hi", 0⟩], none, 0⟩
            "Plan A" 1 ⟨false, Json.null⟩ 2).record.transcript + 1 ∧
    (InterviewPage.handleSubmitResponse
        (InterviewPage.handleSubmitResponse
          ⟨2, "Retail", ⟨"t", "d", "k"⟩, "pending", [⟨Role.host, "Hi", 0⟩], none, 0⟩
          "Plan A" 1 ⟨false, Json.null⟩ 2).record
        "Plan B" 3 ⟨true, Json.obj [("nextPrompt", Json.str "Go on")]⟩ 4).record.transcript.length
      = (InterviewPage.handleSubmitResponse
          ⟨2, "Retail", ⟨"t", "d", "k"⟩, "pending", [⟨Role.host, "Hi", 0⟩], none, 0⟩
          "Plan A" 1 ⟨false, Json.null⟩ 2).record.transcript.length + 2 :=
  submit_failure_then_retry
    ⟨2, "Retail", ⟨"t", "d", "k"⟩, "pending", [⟨Role.host, "Hi", 0⟩], none, 0⟩
    "Plan A" "Plan B" "Go on" 1 2 3 4 ⟨false, Json.null⟩
    ⟨true, Json.obj [("nextPrompt", Json.str "Go on")]⟩
    (by decide) (by decide) rfl rfl

/-- Every operation leaves the existing transcript in place and at most
appends to it. -/
theorem applyOp_transcript_extends (rec : SimRecord) (op : InterviewPage.SimOp) :
    ∃ l, (InterviewPage.applyOp rec op).transcript = rec.transcript ++ l := by
  cases op with
  | submit c tT resp tH =>
    by_cases hc : jsTrim c = ""
    · exact ⟨[], by simp [InterviewPage.applyOp, InterviewPage.handleSubmitResponse, hc]⟩
    · cases hr : InterviewPage.hostReplyOk resp with
      | none =>
        exact ⟨[⟨Role.team, c, tT⟩],
          by simp [InterviewPage.applyOp, InterviewPage.handleSubmitResponse, hc, hr]⟩
      | some s =>
        exact ⟨[⟨Role.team, c, tT⟩, ⟨Role.host, s, tH⟩],
          by simp [InterviewPage.applyOp, InterviewPage.handleSubmitResponse, hc, hr]⟩
  | finishSim => exact ⟨[], by simp [InterviewPage.applyOp]⟩
  | analyzeStep id u =>
    refine ⟨[], ?_⟩
    cases hw : (AnalyzeRoute.POST (some id) (some rec) u).write with
    | none => simp [InterviewPage.applyOp, hw, AnalyzeRoute.applyWrite]
    | some p =>
      cases p with
      | mk a st => simp [InterviewPage.applyOp, hw, AnalyzeRoute.applyWrite]

/-- Claim C4: over any sequence of conversation-engine and analyzer
operations the persisted transcript is append-only: the starting
transcript stays an unmodified initial segment and the length never
decreases. -/
theorem transcript_append_only (rec : SimRecord) (ops : List InterviewPage.SimOp) :
    rec.transcript <+: (List.foldl InterviewPage.applyOp rec ops).transcript ∧
    rec.transcript.length ≤ (List.foldl InterviewPage.applyOp rec ops).transcript.length := by
  suffices h : rec.transcript <+: (List.foldl InterviewPage.applyOp rec ops).transcript by
    exact ⟨h, h.length_le⟩
  induction ops generalizing rec with
  | nil => exact List.prefix_rfl
  | cons op ops ih =>
    rw [List.foldl_cons]
    obtain ⟨l, hl⟩ := applyOp_transcript_extends rec op
    have h1 : rec.transcript <+: (InterviewPage.applyOp rec op).transcript := by
      rw [hl]
      exact List.prefix_append _ _
    exact h1.trans (ih _)

end Cypher
